import Mathlib

/-!
Shallow embedding of the rust-sdp-parser crate (src/sdp.rs, src/media.rs,
src/time.rs, src/origin.rs, src/connection.rs, src/fingerprint.rs,
src/utils.rs, src/error.rs) and proofs about the claims of its
specification.

Modelling conventions:
- Rust `u32`/`u64`/`usize` values are `Nat`s; numeric string parsing checks
  the bound explicitly (`U32`, `U64`).  `usize` subtraction wraps modulo
  `2 ^ 64` as in a release build (`usizeSub`).
- Rust string splitting always uses single-character separators in this
  crate, so splitting is modelled structurally on the character list of the
  string (`charSplit`), which the kernel can evaluate.
- Fallible Rust functions returning `Result<T, Error>` become
  `Except Error T`.  Code paths that can panic (the out-of-bounds index
  `split[1]` in `Sdp::parse_line`) are modelled by `PResult`, whose
  `panicked` constructor marks a Rust panic.
- Rust `str::trim` trims Unicode whitespace; the inputs here are ASCII, and
  `rustTrim` trims the ASCII whitespace characters.
- Error message texts follow the source's `format!` strings; the message of
  a failed numeric parse is abbreviated (the source interpolates the
  `ParseIntError` debug text, which is immaterial to every claim).
-/

/-- ASCII whitespace test used by `rustTrim`. -/
def isWS (c : Char) : Bool :=
  c == ' ' || c == '\t' || c == '\r' || c == '\n'

/-- Model of Rust `str::trim` (on the ASCII inputs of this crate). -/
def rustTrim (s : String) : String :=
  String.mk (((s.data.dropWhile isWS).reverse.dropWhile isWS).reverse)

/-- Split a character list on every occurrence of `c`; pieces may be empty,
matching Rust `str::split(char)`. -/
def charSplitList (c : Char) : List Char → List (List Char)
  | [] => [[]]
  | x :: xs =>
    if x = c then [] :: charSplitList c xs
    else
      match charSplitList c xs with
      | [] => [[x]]
      | y :: ys => (x :: y) :: ys

/-- Model of Rust `value.split(c)` collected into a list. -/
def charSplit (c : Char) (s : String) : List String :=
  (charSplitList c s.data).map String.mk

/-- Model of Rust `value.splitn(2, c)`: the part before the first `c`, and
(when `c` occurs) the rest of the string. -/
def rustSplitn2 (c : Char) (s : String) : String × Option String :=
  match charSplitList c s.data with
  | [] => (s, none)
  | [x] => (String.mk x, none)
  | x :: rest => (String.mk x, some (String.mk (List.intercalate [c] rest)))

/-- Strip one trailing carriage return, as Rust `str::lines` does on each
line terminated by a newline. -/
def stripCRList (l : List Char) : List Char :=
  if l.getLast? = some '\r' then l.dropLast else l

/-- Model of Rust `str::lines`: split on newlines, drop an optional final
terminator, strip a carriage return preceding each newline. -/
def rustLines (s : String) : List String :=
  if s.data.isEmpty then []
  else
    let parts := charSplitList '\n' s.data
    let front := parts.dropLast.map (fun l => String.mk (stripCRList l))
    match parts.getLast? with
    | none => front
    | some last => if last.isEmpty then front else front ++ [String.mk last]

/-- Exclusive upper bound of `u64`. -/
def U64 : Nat := 2 ^ 64

/-- Exclusive upper bound of `u32`. -/
def U32 : Nat := 2 ^ 32

/-- Release-build `usize` subtraction: wraps modulo `2 ^ 64`. -/
def usizeSub (a b : Nat) : Nat :=
  if b ≤ a then a - b else U64 - (b - a)

/-- Model of Rust `str::parse::<uN>()` with exclusive bound `bound`: an
optional leading plus sign, then one or more ASCII digits, value below the
bound. -/
def rustParseNat (bound : Nat) (s : String) : Option Nat :=
  let t := match s.data with
    | '+' :: rest => rest
    | l => l
  if t.isEmpty then none
  else if t.all Char.isDigit then
    let n := t.foldl (fun a c => a * 10 + (c.toNat - 48)) 0
    if n < bound then some n else none
  else none

/-- The crate's error type (src/error.rs): a single `Parse` variant carrying
a message. -/
inductive Error where
  | Parse : String → Error
deriving DecidableEq, Repr

/-- Outcome of running code that may return, fail with an `Error`, or
panic. -/
inductive PResult (α : Type) where
  | ok : α → PResult α
  | err : Error → PResult α
  | panicked : PResult α
deriving DecidableEq, Repr

/-- Lift a `Result` value into `PResult`. -/
def PResult.ofExcept : Except Error α → PResult α
  | .ok a => .ok a
  | .error e => .err e

/-- src/utils.rs `parse_str`: succeed with the item when present, otherwise
a positional `Parse` error. -/
def parse_str (value : Option String) (index : Nat) : Except Error String :=
  match value with
  | some item => .ok item
  | none => .error (.Parse ("No item found at position " ++ toString index))

/-- src/utils.rs `parse_number::<T>` with `bound` standing for the numeric
type's range. -/
def parse_number (bound : Nat) (value : Option String) (index : Nat) :
    Except Error Nat :=
  match parse_str value index with
  | .error e => .error e
  | .ok item =>
    match rustParseNat bound item with
    | some n => .ok n
    | none => .error (.Parse ("Error parsing " ++ item))

/-- src/time.rs `Time`. -/
structure Time where
  start_time : Nat := 0
  stop_time : Nat := 0
  bounded : Bool := false
deriving DecidableEq, Repr

/-- src/time.rs `Time::new`. -/
def Time.new (value : String) : Except Error Time := do
  let split := charSplit ' ' value
  let start_time ← parse_number U64 split.head? 1
  let split := split.tail
  let stop_time ← parse_number U64 split.head? 2
  let bounded := !(start_time == 0 && stop_time == 0)
  .ok { start_time, stop_time, bounded }

/-- src/origin.rs `Origin`. -/
structure Origin where
  username : String := ""
  session_id : Nat := 0
  session_version : Nat := 0
  network_type : String := ""
  ip_type : String := ""
  ip_address : String := ""
deriving DecidableEq, Repr

/-- src/origin.rs `Origin::new`. -/
def Origin.new (value : String) : Except Error Origin := do
  let split := charSplit ' ' value
  let username ← parse_str split.head? 1
  let split := split.tail
  let session_id ← parse_number U64 split.head? 2
  let split := split.tail
  let session_version ← parse_number U64 split.head? 3
  let split := split.tail
  let network_type ← parse_str split.head? 4
  let split := split.tail
  let ip_type ← parse_str split.head? 5
  let split := split.tail
  let ip_address ← parse_str split.head? 6
  .ok { username, session_id, session_version, network_type, ip_type,
        ip_address }

/-- src/connection.rs `Connection`. -/
structure Connection where
  network_type : String := ""
  ip_type : String := ""
  ip_address : String := ""
deriving DecidableEq, Repr

/-- src/connection.rs `Connection::new`. -/
def Connection.new (value : String) : Except Error Connection := do
  let split := charSplit ' ' value
  let network_type ← parse_str split.head? 1
  let split := split.tail
  let ip_type ← parse_str split.head? 2
  let split := split.tail
  let ip_address ← parse_str split.head? 3
  .ok { network_type, ip_type, ip_address }

/-- src/fingerprint.rs `Fingerprint` (field `r#type` is written `type`). -/
structure Fingerprint where
  type : String := ""
  hash : String := ""
deriving DecidableEq, Repr

/-- src/fingerprint.rs `Fingerprint::new`. -/
def Fingerprint.new (value : String) : Except Error Fingerprint := do
  let split := charSplit ' ' value
  let ty ← parse_str split.head? 1
  let split := split.tail
  let hash ← parse_str split.head? 2
  .ok { type := ty, hash }

/-- src/media.rs `Candidate`. -/
structure Candidate where
  component : Nat := 0
  foundation : String := ""
  transport : String := ""
  priority : Nat := 0
  ip : String := ""
  port : Nat := 0
  type : String := ""
deriving DecidableEq, Repr

/-- src/media.rs `Candidate::new`: positional decode that skips one token
(the literal `typ`) between the port and the candidate type. -/
def Candidate.new (value : String) : Except Error Candidate := do
  let split := charSplit ' ' value
  let component ← parse_number U64 split.head? 1
  let split := split.tail
  let foundation ← parse_str split.head? 2
  let split := split.tail
  let transport ← parse_str split.head? 3
  let split := split.tail
  let priority ← parse_number U64 split.head? 4
  let split := split.tail
  let ip ← parse_str split.head? 5
  let split := split.tail
  let port ← parse_number U64 split.head? 6
  let split := split.tail
  let split := split.tail
  let ty ← parse_str split.head? 7
  .ok { component, foundation, transport, priority, ip, port, type := ty }

/-- src/media.rs `Fmtp`. -/
structure Fmtp where
  config : String := ""
  payload : Nat := 0
deriving DecidableEq, Repr

/-- src/media.rs `Fmtp::new`. -/
def Fmtp.new (value : String) : Except Error Fmtp := do
  let pair := rustSplitn2 ' ' value
  let payload ← parse_number U64 (some pair.1) 1
  let config ← parse_str pair.2 2
  .ok { payload, config }

/-- src/media.rs `Rtpmap`. -/
structure Rtpmap where
  codec : String := ""
  payload : String := ""
  rate : Nat := 0
deriving DecidableEq, Repr

/-- src/media.rs `Rtpmap::new`. -/
def Rtpmap.new (value : String) : Except Error Rtpmap := do
  let split := charSplit ' ' value
  let payload ← parse_str split.head? 1
  let split := split.tail
  let second ← parse_str split.head? 2
  let split2 := charSplit '/' second
  let codec ← parse_str split2.head? 2
  let split2 := split2.tail
  let rate ← parse_number U64 split2.head? 3
  .ok { codec, payload, rate }

/-- src/media.rs `RtcpFb`. -/
structure RtcpFb where
  payload : String := ""
  type : String := ""
deriving DecidableEq, Repr

/-- src/media.rs `RtcpFb::new`. -/
def RtcpFb.new (value : String) : Except Error RtcpFb := do
  let split := charSplit ' ' value
  let payload ← parse_str split.head? 1
  let split := split.tail
  let ty ← parse_str split.head? 2
  .ok { payload, type := ty }

/-- src/media.rs `Ssrc` (the Rust field `attribute` is written `attr`,
since `attribute` is a Lean keyword). -/
structure Ssrc where
  id : Nat := 0
  attr : String := ""
  value : Option String := none
deriving DecidableEq, Repr

/-- src/media.rs `Ssrc::new`. -/
def Ssrc.new (value : String) : Except Error Ssrc := do
  let split := charSplit ' ' value
  let id ← parse_number U64 split.head? 1
  let split := split.tail
  let second ← parse_str split.head? 2
  let split2 := charSplit ':' second
  let attr ← parse_str split2.head? 2
  let split2 := split2.tail
  let v ← match split2.head? with
    | some s => do
      let v ← parse_str (some s) 3
      pure (some v)
    | none => pure none
  .ok { id, attr, value := v }

/-- src/media.rs `Media`. -/
structure Media where
  type : String := ""
  port : Nat := 0
  protocol : String := ""
  payloads : String := ""
  candidates : List Candidate := []
  direction : String := ""
  fmtp : List Fmtp := []
  ptime : Nat := 0
  rtpmap : List Rtpmap := []
  rtc_fb : List RtcpFb := []
  ssrc : List Ssrc := []
deriving DecidableEq, Repr

/-- src/media.rs `Media::new`: decode the media header; the remaining
fields keep their `Default` values. -/
def Media.new (value : String) : Except Error Media := do
  let split := charSplit ' ' value
  let ty ← parse_str split.head? 1
  let split := split.tail
  let port ← parse_number U64 split.head? 2
  let split := split.tail
  let protocol ← parse_str split.head? 3
  let split := split.tail
  let payloads ← parse_str split.head? 4
  .ok { type := ty, port, protocol, payloads }

/-- src/media.rs `Media::parse_attribute`: dispatch a media-scoped
attribute by key, mutating the receiving block. -/
def Media.parse_attribute (m : Media) (attr : String) (value : String) :
    Except Error Media :=
  match attr with
  | "ptime" => do
    let p ← parse_number U64 (some value) 1
    .ok { m with ptime := p }
  | "rtpmap" => do
    let r ← Rtpmap.new value
    .ok { m with rtpmap := m.rtpmap ++ [r] }
  | "candidate" => do
    let c ← Candidate.new value
    .ok { m with candidates := m.candidates ++ [c] }
  | "fmtp" => do
    let f ← Fmtp.new value
    .ok { m with fmtp := m.fmtp ++ [f] }
  | "rtcp-fb" => do
    let r ← RtcpFb.new value
    .ok { m with rtc_fb := m.rtc_fb ++ [r] }
  | "ssrc" => do
    let s ← Ssrc.new value
    .ok { m with ssrc := m.ssrc ++ [s] }
  | "direction" => .ok { m with direction := value }
  | _ => .error (.Parse ("Unsupported media attribute: " ++ attr))

/-- src/sdp.rs `Sdp`: the document accumulator. -/
structure Sdp where
  version : Nat := 0
  session_name : String := ""
  ice_ufrag : String := ""
  ice_pwd : String := ""
  fingerprint : Fingerprint := {}
  origin : Origin := {}
  time : Time := {}
  connection : Connection := {}
  media : List Media := []
  current_media : Option Nat := none
deriving DecidableEq, Repr

/-- src/sdp.rs `Sdp::parse_media`: bump the current-media counter and
append the newly decoded block. -/
def Sdp.parse_media (sdp : Sdp) (value : String) : Except Error Sdp := do
  let count := sdp.current_media.getD 0
  let m ← Media.new value
  .ok { sdp with current_media := some (count + 1),
                 media := sdp.media ++ [m] }

/-- src/sdp.rs `Sdp::parse_media_attribute`: resolve the block at index
`count - 1` (release-build wrapping subtraction) and dispatch to it; a
missing block is the attribute-before-media error. -/
def Sdp.parse_media_attribute (sdp : Sdp) (attr : String)
    (value : String) : Except Error Sdp :=
  let count := sdp.current_media.getD 0
  match sdp.media[usizeSub count 1]? with
  | none =>
    .error (.Parse "Cannot parse a media attribute before a 'm' line")
  | some media => do
    let m ← media.parse_attribute attr value
    .ok { sdp with media := sdp.media.set (usizeSub count 1) m }

/-- src/sdp.rs `Sdp::parse_attribute`: split on the first colon; a missing
colon makes the whole value a `direction` flag; `ice-ufrag`, `ice-pwd` and
`fingerprint` are session scalars; every other key goes to the media
attribute router. -/
def Sdp.parse_attribute (sdp : Sdp) (value : String) : Except Error Sdp :=
  match rustSplitn2 ':' value with
  | (flag, none) => sdp.parse_media_attribute "direction" flag
  | (key, some v) =>
    match key with
    | "ice-ufrag" => .ok { sdp with ice_ufrag := v }
    | "ice-pwd" => .ok { sdp with ice_pwd := v }
    | "fingerprint" => do
      let f ← Fingerprint.new v
      .ok { sdp with fingerprint := f }
    | _ => sdp.parse_media_attribute key v

/-- src/sdp.rs `Sdp::parse_line`: split on the first equals sign (indexing
`split[1]` panics when none is present), trim the value, dispatch on the
tag. -/
def Sdp.parse_line (sdp : Sdp) (line : String) : PResult Sdp :=
  match rustSplitn2 '=' line with
  | (_, none) => .panicked
  | (key, some raw) =>
    let value := rustTrim raw
    match key with
    | "v" => .ofExcept (do
        let n ← parse_number U32 (some value) 1
        .ok { sdp with version := n })
    | "o" => .ofExcept (do
        let o ← Origin.new value
        .ok { sdp with origin := o })
    | "s" => .ofExcept (do
        let s ← parse_str (some value) 1
        .ok { sdp with session_name := s })
    | "t" => .ofExcept (do
        let t ← Time.new value
        .ok { sdp with time := t })
    | "c" => .ofExcept (do
        let c ← Connection.new value
        .ok { sdp with connection := c })
    | "a" => .ofExcept (sdp.parse_attribute value)
    | "m" => .ofExcept (sdp.parse_media value)
    | _ => .err (.Parse ("Unsupported attribute: " ++ key))

/-- Process the lines in order, stopping at the first error or panic. -/
def Sdp.parseLines (sdp : Sdp) : List String → PResult Sdp
  | [] => .ok sdp
  | l :: ls =>
    match sdp.parse_line l with
    | .ok s => s.parseLines ls
    | .err e => .err e
    | .panicked => .panicked

/-- src/sdp.rs `Sdp::parse`: fold `parse_line` over the input's lines,
starting from the default document. -/
def Sdp.parse (sdp_message : String) : PResult Sdp :=
  Sdp.parseLines {} (rustLines sdp_message)

/-- The default (all-fields-default) document, `Sdp::default()`. -/
def Sdp.default : Sdp := {}

/-- States reachable from the default document by successfully processed
lines. -/
inductive Reachable : Sdp → Prop where
  | init : Reachable Sdp.default
  | step {s s' : Sdp} {l : String} :
      Reachable s → s.parse_line l = .ok s' → Reachable s'

theorem parse_str_ok {o : Option String} {i : Nat} {s : String} :
    parse_str o i = .ok s ↔ o = some s := by
  cases o <;> simp [parse_str]

theorem parse_number_ok {bound : Nat} {o : Option String} {i n : Nat} :
    parse_number bound o i = .ok n ↔
      ∃ s, o = some s ∧ rustParseNat bound s = some n := by
  cases o with
  | none => simp [parse_number, parse_str]
  | some s =>
    simp only [parse_number, parse_str]
    cases h : rustParseNat bound s <;> simp [h]

theorem ofExcept_ok {α : Type} {x : Except Error α} {a : α} :
    PResult.ofExcept x = .ok a ↔ x = .ok a := by
  cases x <;> simp [PResult.ofExcept]

theorem charSplitList_ne_nil (c : Char) (l : List Char) :
    charSplitList c l ≠ [] := by
  cases l with
  | nil => simp [charSplitList]
  | cons x xs =>
    simp only [charSplitList]
    split
    · simp
    · split <;> simp

theorem charSplitList_not_mem {c : Char} {l : List Char} (h : c ∉ l) :
    charSplitList c l = [l] := by
  induction l with
  | nil => rfl
  | cons x xs ih =>
    simp only [List.mem_cons, not_or] at h
    have hx : ¬x = c := fun hh => h.1 hh.symm
    simp only [charSplitList, if_neg hx, ih h.2]

theorem rustSplitn2_of_not_mem {c : Char} {s : String} (h : c ∉ s.data) :
    rustSplitn2 c s = (s, none) := by
  simp only [rustSplitn2, charSplitList_not_mem h]

theorem list_set_last {α : Type} (l : List α) (a : α) (h : l ≠ []) :
    l.set (l.length - 1) a = l.dropLast ++ [a] := by
  induction l with
  | nil => exact absurd rfl h
  | cons x xs ih =>
    cases xs with
    | nil => rfl
    | cons y ys =>
      simp only [List.length_cons, Nat.add_sub_cancel, List.set_cons_succ,
        List.dropLast_cons₂, List.cons_append, List.cons.injEq, true_and]
      have := ih (by simp)
      simpa using this
theorem parse_media_attribute_shape {s : Sdp} {a v : String} {s' : Sdp}
    (h : s.parse_media_attribute a v = .ok s') :
    s'.current_media = s.current_media ∧
    s'.media.length = s.media.length := by
  simp only [Sdp.parse_media_attribute] at h
  split at h
  · exact absurd h (by simp)
  · simp only [bind, Except.bind] at h
    split at h
    · exact absurd h (by simp)
    · simp only [Except.ok.injEq] at h
      subst h
      simp

theorem parse_attribute_shape {s : Sdp} {v : String} {s' : Sdp}
    (h : s.parse_attribute v = .ok s') :
    s'.current_media = s.current_media ∧
    s'.media.length = s.media.length := by
  simp only [Sdp.parse_attribute] at h
  split at h
  · exact parse_media_attribute_shape h
  · split at h
    · simp only [Except.ok.injEq] at h; subst h; exact ⟨rfl, rfl⟩
    · simp only [Except.ok.injEq] at h; subst h; exact ⟨rfl, rfl⟩
    · simp only [bind, Except.bind] at h
      split at h
      · exact absurd h (by simp)
      · simp only [Except.ok.injEq] at h; subst h; exact ⟨rfl, rfl⟩
    · exact parse_media_attribute_shape h

theorem parse_media_shape {s : Sdp} {v : String} {s' : Sdp}
    (h : s.parse_media v = .ok s') :
    s'.current_media = some (s.current_media.getD 0 + 1) ∧
    s'.media.length = s.media.length + 1 := by
  simp only [Sdp.parse_media, bind, Except.bind] at h
  split at h
  · exact absurd h (by simp)
  · simp only [Except.ok.injEq] at h
    subst h
    simp

theorem parse_line_count_inv {s : Sdp} {l : String} {s' : Sdp}
    (h : s.parse_line l = .ok s')
    (hinv : s.current_media.getD 0 = s.media.length) :
    s'.current_media.getD 0 = s'.media.length := by
  simp only [Sdp.parse_line] at h
  split at h
  · exact absurd h (by simp)
  · split at h
    · rw [ofExcept_ok] at h
      simp only [bind, Except.bind] at h
      split at h
      · exact absurd h (by simp)
      · simp only [Except.ok.injEq] at h; subst h; exact hinv
    · rw [ofExcept_ok] at h
      simp only [bind, Except.bind] at h
      split at h
      · exact absurd h (by simp)
      · simp only [Except.ok.injEq] at h; subst h; exact hinv
    · rw [ofExcept_ok] at h
      simp only [bind, Except.bind] at h
      split at h
      · exact absurd h (by simp)
      · simp only [Except.ok.injEq] at h; subst h; exact hinv
    · rw [ofExcept_ok] at h
      simp only [bind, Except.bind] at h
      split at h
      · exact absurd h (by simp)
      · simp only [Except.ok.injEq] at h; subst h; exact hinv
    · rw [ofExcept_ok] at h
      simp only [bind, Except.bind] at h
      split at h
      · exact absurd h (by simp)
      · simp only [Except.ok.injEq] at h; subst h; exact hinv
    · rw [ofExcept_ok] at h
      obtain ⟨h1, h2⟩ := parse_attribute_shape h
      rw [h1, h2, hinv]
    · rw [ofExcept_ok] at h
      obtain ⟨h1, h2⟩ := parse_media_shape h
      rw [h1, h2, ← hinv]
      rfl
    · exact absurd h (by simp)
/-- C10: in every state reachable from the initial empty document by
successfully processed lines, the stored current-media counter equals the
length of the media sequence, so the router's target index (counter minus
one, with release-build wrapping subtraction) resolves to the last element
of the media sequence whenever it is non-empty. -/
theorem c10_counter_matches_media_length (s : Sdp) (h : Reachable s) :
    s.current_media.getD 0 = s.media.length ∧
    (s.media ≠ [] →
      s.media[usizeSub (s.current_media.getD 0) 1]? = s.media.getLast?) := by
  have hinv : s.current_media.getD 0 = s.media.length := by
    induction h with
    | init => rfl
    | step _ hline ih => exact parse_line_count_inv hline ih
  refine ⟨hinv, fun hne => ?_⟩
  have hpos : 0 < s.media.length := List.length_pos.mpr hne
  have hsub : usizeSub (s.current_media.getD 0) 1 = s.media.length - 1 := by
    rw [hinv]
    unfold usizeSub
    rw [if_pos (show 1 ≤ s.media.length from hpos)]
  rw [hsub, List.getLast?_eq_getElem?]

/-- Witness for C10 at the concrete state reached after one `m` line. -/
theorem c10_witness :
    (({ media := [{ type := "audio", port := 54400, protocol := "RTP/SAVPF",
                    payloads := "0" }],
        current_media := some 1 } : Sdp).current_media.getD 0 =
      ({ media := [{ type := "audio", port := 54400, protocol := "RTP/SAVPF",
                     payloads := "0" }],
         current_media := some 1 } : Sdp).media.length) ∧
    (({ media := [{ type := "audio", port := 54400, protocol := "RTP/SAVPF",
                    payloads := "0" }],
        current_media := some 1 } : Sdp).media ≠ [] →
      ({ media := [{ type := "audio", port := 54400, protocol := "RTP/SAVPF",
                     payloads := "0" }],
         current_media := some 1 } : Sdp).media[usizeSub
           (({ media := [{ type := "audio", port := 54400,
                           protocol := "RTP/SAVPF", payloads := "0" }],
               current_media := some 1 } : Sdp).current_media.getD 0) 1]? =
        ({ media := [{ type := "audio", port := 54400,
                       protocol := "RTP/SAVPF", payloads := "0" }],
           current_media := some 1 } : Sdp).media.getLast?) :=
  c10_counter_matches_media_length _
    (Reachable.step Reachable.init
      (show Sdp.default.parse_line "m=audio 54400 RTP/SAVPF 0 96" = _ by
        decide))
/-- C1: the claim says a line with no equals sign yields a MalformedLine
parse error and never panics; the code instead indexes `split[1]`, which
does not exist for such a line, and panics.  Both a non-empty line without
an equals sign and an empty line panic. -/
theorem c1_no_equals_panics :
    Sdp.parse "foo" = PResult.panicked ∧
    Sdp.parse "v=0\n\nv=0" = PResult.panicked := by
  constructor <;> decide

/-- C7: whenever the timing decoder succeeds, the resulting record
satisfies `bounded = !(start == 0 && stop == 0)`; decoding the value
"0 0" yields start 0, stop 0, unbounded. -/
theorem c7_bounded_derived (v : String) (t : Time)
    (h : Time.new v = .ok t) :
    t.bounded = !(t.start_time == 0 && t.stop_time == 0) ∧
    Time.new "0 0" =
      .ok { start_time := 0, stop_time := 0, bounded := false } := by
  refine ⟨?_, rfl⟩
  simp only [Time.new, bind, Except.bind] at h
  split at h
  · exact absurd h (by simp)
  · split at h
    · exact absurd h (by simp)
    · simp only [Except.ok.injEq] at h
      subst h
      rfl

/-- Witness for C7 at the timing value "0 0". -/
theorem c7_witness :
    (({ start_time := 0, stop_time := 0, bounded := false } : Time).bounded =
      !(({ start_time := 0, stop_time := 0, bounded := false } :
          Time).start_time == 0 &&
        ({ start_time := 0, stop_time := 0, bounded := false } :
          Time).stop_time == 0)) ∧
    Time.new "0 0" =
      .ok { start_time := 0, stop_time := 0, bounded := false } :=
  c7_bounded_derived "0 0"
    { start_time := 0, stop_time := 0, bounded := false } rfl

/-- C9: parsing is deterministic; the result of `Sdp.parse` depends on
nothing but the input string, so equal inputs give equal results. -/
theorem c9_parse_deterministic (s₁ s₂ : String) (h : s₁ = s₂) :
    Sdp.parse s₁ = Sdp.parse s₂ := by
  rw [h]

/-- Witness for C9 at a concrete input. -/
theorem c9_witness : Sdp.parse "t=0 0" = Sdp.parse "t=0 0" :=
  c9_parse_deterministic "t=0 0" "t=0 0" rfl

theorem head?_tail_tail_tail {α : Type} (l : List α) :
    l.tail.tail.tail.head? = l[3]? := by
  rcases l with _ | ⟨a, _ | ⟨b, _ | ⟨c, l⟩⟩⟩ <;>
    simp [List.head?_eq_getElem?]

/-- C3 counterexample: decoding the media header "audio 54400 RTP/SAVPF
0 96" stores "0" in `payloads`, not the full raw list "0 96" the claim
requires. -/
theorem c3_counterexample :
    (Media.new "audio 54400 RTP/SAVPF 0 96").toOption.map Media.payloads =
      some "0" ∧
    ¬((Media.new "audio 54400 RTP/SAVPF 0 96").toOption.map Media.payloads =
      some "0 96") := by
  constructor <;> simp [show Media.new "audio 54400 RTP/SAVPF 0 96" =
    .ok { type := "audio", port := 54400, protocol := "RTP/SAVPF",
          payloads := "0" } from rfl, Except.toOption]

/-- C3 (amended): for every successfully decoded media header, `payloads`
holds exactly the fourth space-delimited token — the first payload token,
not the whole payload list. -/
theorem c3_payloads_first_token (value : String) (m : Media)
    (h : Media.new value = .ok m) :
    (charSplit ' ' value)[3]? = some m.payloads := by
  simp only [Media.new, bind, Except.bind] at h
  split at h
  · exact absurd h (by simp)
  · split at h
    · exact absurd h (by simp)
    · split at h
      · exact absurd h (by simp)
      · split at h
        · exact absurd h (by simp)
        · simp only [Except.ok.injEq] at h
          subst h
          rename_i h4
          rw [parse_str_ok] at h4
          rw [← head?_tail_tail_tail]
          exact h4

/-- Witness for the amended C3 at the concrete media header of the claim. -/
theorem c3_witness :
    (charSplit ' ' "audio 54400 RTP/SAVPF 0 96")[3]? = some "0" :=
  c3_payloads_first_token "audio 54400 RTP/SAVPF 0 96"
    { type := "audio", port := 54400, protocol := "RTP/SAVPF",
      payloads := "0" } rfl

/-- C5: a successfully decoded `m` line appends exactly one MediaBlock to
the media sequence, increments the open-media count by exactly one, leaves
every other document field unchanged (the result is the old document with
only `media` and `current_media` updated), and the new block's accumulator
fields are all empty. -/
theorem c5_media_line_appends_empty_block (st : Sdp) (value : String)
    (m : Media) (h : Media.new value = .ok m) :
    st.parse_media value =
      .ok { st with media := st.media ++ [m],
                    current_media := some (st.current_media.getD 0 + 1) } ∧
    m.candidates = [] ∧ m.direction = "" ∧ m.fmtp = [] ∧ m.ptime = 0 ∧
    m.rtpmap = [] ∧ m.rtc_fb = [] ∧ m.ssrc = [] := by
  constructor
  · simp only [Sdp.parse_media, bind, Except.bind, h]
  · simp only [Media.new, bind, Except.bind] at h
    split at h
    · exact absurd h (by simp)
    · split at h
      · exact absurd h (by simp)
      · split at h
        · exact absurd h (by simp)
        · split at h
          · exact absurd h (by simp)
          · simp only [Except.ok.injEq] at h
            subst h
            exact ⟨rfl, rfl, rfl, rfl, rfl, rfl, rfl⟩

/-- Witness for C5 at the default document and the claim's media header. -/
theorem c5_witness :
    (Sdp.default.parse_media "audio 54400 RTP/SAVPF 0 96" =
      .ok { Sdp.default with
              media := Sdp.default.media ++
                [{ type := "audio", port := 54400, protocol := "RTP/SAVPF",
                   payloads := "0" }],
              current_media :=
                some (Sdp.default.current_media.getD 0 + 1) }) ∧
    ({ type := "audio", port := 54400, protocol := "RTP/SAVPF",
       payloads := "0" } : Media).candidates = [] ∧
    ({ type := "audio", port := 54400, protocol := "RTP/SAVPF",
       payloads := "0" } : Media).direction = "" ∧
    ({ type := "audio", port := 54400, protocol := "RTP/SAVPF",
       payloads := "0" } : Media).fmtp = [] ∧
    ({ type := "audio", port := 54400, protocol := "RTP/SAVPF",
       payloads := "0" } : Media).ptime = 0 ∧
    ({ type := "audio", port := 54400, protocol := "RTP/SAVPF",
       payloads := "0" } : Media).rtpmap = [] ∧
    ({ type := "audio", port := 54400, protocol := "RTP/SAVPF",
       payloads := "0" } : Media).rtc_fb = [] ∧
    ({ type := "audio", port := 54400, protocol := "RTP/SAVPF",
       payloads := "0" } : Media).ssrc = [] :=
  c5_media_line_appends_empty_block Sdp.default "audio 54400 RTP/SAVPF 0 96"
    { type := "audio", port := 54400, protocol := "RTP/SAVPF",
      payloads := "0" } rfl

/-- C8: the candidate decoder reads, in order, component (numeric),
foundation, transport, priority (numeric), ip, port (numeric), skips one
token without validating it, then reads the candidate type and ignores any
remaining tokens; the claim's concrete value decodes accordingly. -/
theorem c8_candidate_token_order (value : String)
    (c f tr pr ip po sk ty : String) (rest : List String)
    (cn prn pon : Nat)
    (hsplit : charSplit ' ' value =
      c :: f :: tr :: pr :: ip :: po :: sk :: ty :: rest)
    (hc : rustParseNat U64 c = some cn)
    (hpr : rustParseNat U64 pr = some prn)
    (hpo : rustParseNat U64 po = some pon) :
    Candidate.new value =
      .ok { component := cn, foundation := f, transport := tr,
            priority := prn, ip := ip, port := pon, type := ty } := by
  simp [Candidate.new, hsplit, bind, Except.bind, parse_number, parse_str,
    hc, hpr, hpo]

/-- Witness for C8 at the claim's concrete candidate value, whose trailing
"generation 0" tokens are ignored. -/
theorem c8_witness :
    Candidate.new
        "1467250027 1 udp 2122260223 192.168.0.196 46243 typ host generation 0" =
      .ok { component := 1467250027, foundation := "1", transport := "udp",
            priority := 2122260223, ip := "192.168.0.196", port := 46243,
            type := "host" } :=
  c8_candidate_token_order _ "1467250027" "1" "udp" "2122260223"
    "192.168.0.196" "46243" "typ" "host" ["generation", "0"]
    1467250027 2122260223 46243 (by decide) (by decide) (by decide)
    (by decide)

/-- An attribute value is routed to the media attribute router exactly when
it has no colon (flag attribute) or its key before the first colon is none
of the three session-scope keys. -/
def routedToMediaRouter (v : String) : Bool :=
  match rustSplitn2 ':' v with
  | (_, none) => true
  | (k, some _) =>
    !(k == "ice-ufrag" || k == "ice-pwd" || k == "fingerprint")

theorem parse_media_attribute_before_media (st : Sdp) (a v : String)
    (hcm : st.current_media = none) (hm : st.media = []) :
    st.parse_media_attribute a v =
      .error (.Parse "Cannot parse a media attribute before a 'm' line") := by
  simp [Sdp.parse_media_attribute, hcm, hm]

/-- C2: any attribute line routed to the media attribute router (any key
other than ice-ufrag, ice-pwd, fingerprint, including flag-only attributes
without a colon) fails with the attribute-before-media parse error when no
`m` line has been processed yet (no media block, no counter). -/
theorem c2_attribute_before_media (st : Sdp) (v : String)
    (hcm : st.current_media = none) (hm : st.media = [])
    (hroute : routedToMediaRouter v = true) :
    st.parse_attribute v =
      .error (.Parse "Cannot parse a media attribute before a 'm' line") := by
  unfold routedToMediaRouter at hroute
  unfold Sdp.parse_attribute
  split
  · exact parse_media_attribute_before_media st _ _ hcm hm
  · rename_i k v' heq
    rw [heq] at hroute
    simp only [Bool.not_eq_true', Bool.or_eq_false_iff, beq_eq_false_iff_ne,
      ne_eq] at hroute
    split
    · exact absurd rfl hroute.1.1
    · exact absurd rfl hroute.1.2
    · exact absurd rfl hroute.2
    · exact parse_media_attribute_before_media st _ _ hcm hm

/-- Witness for C2: an ssrc attribute and a flag attribute, each on the
default (pre-media) document. -/
theorem c2_witness :
    Sdp.default.parse_attribute "ssrc:1399694169 foo:bar" =
      .error (.Parse "Cannot parse a media attribute before a 'm' line") :=
  c2_attribute_before_media Sdp.default "ssrc:1399694169 foo:bar" rfl rfl
    (by decide)

theorem media_parse_attribute_unknown (m : Media) (k v : String)
    (hk : k ∉ ["ptime", "rtpmap", "candidate", "fmtp", "rtcp-fb", "ssrc",
               "direction"]) :
    m.parse_attribute k v =
      .error (.Parse ("Unsupported media attribute: " ++ k)) := by
  simp only [List.mem_cons, List.mem_singleton, not_or] at hk
  obtain ⟨h1, h2, h3, h4, h5, h6, h7, -⟩ := hk
  unfold Media.parse_attribute
  split
  · exact absurd rfl h1
  · exact absurd rfl h2
  · exact absurd rfl h3
  · exact absurd rfl h4
  · exact absurd rfl h5
  · exact absurd rfl h6
  · exact absurd rfl h7
  · rfl

/-- C4 counterexample: the key `direction` is not among the keys the claim
lists, yet an `a=direction:recvonly` line after an `m` line succeeds
(setting the block's direction) instead of failing with an
unsupported-media-attribute error. -/
theorem c4_counterexample :
    Sdp.parse "m=audio 54400 RTP/SAVPF 0 96\na=direction:recvonly" =
      PResult.ok
        { media := [{ type := "audio", port := 54400,
                      protocol := "RTP/SAVPF", payloads := "0",
                      direction := "recvonly" }],
          current_media := some 1 } := by
  decide

/-- C4 (amended): for every attribute line whose key is none of ice-ufrag,
ice-pwd, fingerprint, ptime, rtpmap, candidate, fmtp, rtcp-fb, ssrc, and
also not the internal key `direction`, dispatch after at least one `m` line
fails with a parse error naming the key. -/
theorem c4_unknown_key_rejected (st : Sdp) (v k rest : String)
    (hsplit : rustSplitn2 ':' v = (k, some rest))
    (hk : k ∉ ["ice-ufrag", "ice-pwd", "fingerprint", "ptime", "rtpmap",
               "candidate", "fmtp", "rtcp-fb", "ssrc", "direction"])
    (hcm : st.current_media = some st.media.length)
    (hne : st.media ≠ []) :
    st.parse_attribute v =
      .error (.Parse ("Unsupported media attribute: " ++ k)) := by
  simp only [List.mem_cons, not_or] at hk
  obtain ⟨h1, h2, h3, hrest⟩ := hk
  have hpos : 0 < st.media.length := List.length_pos.mpr hne
  have hsub : usizeSub st.media.length 1 = st.media.length - 1 := by
    unfold usizeSub
    rw [if_pos (show 1 ≤ st.media.length from hpos)]
  have hget : st.media[st.media.length - 1]? =
      some (st.media.getLast hne) := by
    rw [← List.getLast?_eq_getElem?, List.getLast?_eq_getLast st.media hne]
  have hmain : st.parse_media_attribute k rest =
      .error (.Parse ("Unsupported media attribute: " ++ k)) := by
    unfold Sdp.parse_media_attribute
    rw [hcm]
    simp only [Option.getD_some, hsub, hget]
    rw [media_parse_attribute_unknown (st.media.getLast hne) k rest
      (by simp only [List.mem_cons, not_or]; exact hrest)]
    rfl
  unfold Sdp.parse_attribute
  split
  · rename_i heq
    rw [hsplit] at heq
    exact absurd heq (by simp)
  · rename_i heq
    rw [hsplit] at heq
    injection heq with hk1 hv1
    injection hv1 with hv1
    subst hk1
    subst hv1
    split
    · exact absurd rfl h1
    · exact absurd rfl h2
    · exact absurd rfl h3
    · exact hmain

/-- Witness for the amended C4: the unknown key `foo` is rejected on a
document with one open media block. -/
theorem c4_witness :
    ({ media := [{ type := "audio", port := 54400, protocol := "RTP/SAVPF",
                   payloads := "0" }],
       current_media := some 1 } : Sdp).parse_attribute "foo:bar" =
      .error (.Parse ("Unsupported media attribute: " ++ "foo")) :=
  c4_unknown_key_rejected _ "foo:bar" "foo" "bar" (by decide) (by decide)
    rfl (by decide)

/-- C6: a flag-only attribute value (no colon) processed after at least one
`m` line (counter in sync with the media sequence, as in every reachable
state) rewrites the last media block's `direction` to the flag text
verbatim and changes nothing else in the document. -/
theorem c6_flag_sets_direction (st : Sdp) (v : String)
    (hflag : ':' ∉ v.data)
    (hcm : st.current_media = some st.media.length)
    (hne : st.media ≠ []) :
    st.parse_attribute v =
      .ok { st with
              media := st.media.dropLast ++
                [{ st.media.getLast hne with direction := v }] } := by
  have hpos : 0 < st.media.length := List.length_pos.mpr hne
  have hsub : usizeSub st.media.length 1 = st.media.length - 1 := by
    unfold usizeSub
    rw [if_pos (show 1 ≤ st.media.length from hpos)]
  have hget : st.media[st.media.length - 1]? =
      some (st.media.getLast hne) := by
    rw [← List.getLast?_eq_getElem?, List.getLast?_eq_getLast st.media hne]
  unfold Sdp.parse_attribute
  rw [rustSplitn2_of_not_mem hflag]
  unfold Sdp.parse_media_attribute
  rw [hcm]
  simp only [Option.getD_some, hsub, hget]
  show Except.bind _ _ = _
  rw [show (st.media.getLast hne).parse_attribute "direction" v =
    .ok { st.media.getLast hne with direction := v } from rfl]
  simp only [Except.bind]
  rw [list_set_last st.media _ hne]

/-- Witness for C6: the flag `sendrecv` on a document with one open media
block. -/
theorem c6_witness :
    ({ media := [{ type := "audio", port := 54400, protocol := "RTP/SAVPF",
                   payloads := "0" }],
       current_media := some 1 } : Sdp).parse_attribute "sendrecv" =
      .ok { ({ media := [{ type := "audio", port := 54400,
                           protocol := "RTP/SAVPF", payloads := "0" }],
               current_media := some 1 } : Sdp) with
              media := ({ media := [{ type := "audio", port := 54400,
                                      protocol := "RTP/SAVPF",
                                      payloads := "0" }],
                          current_media := some 1 } : Sdp).media.dropLast ++
                [{ ({ media := [{ type := "audio", port := 54400,
                                  protocol := "RTP/SAVPF",
                                  payloads := "0" }],
                      current_media := some 1 } : Sdp).media.getLast
                     (by decide) with direction := "sendrecv" }] } :=
  c6_flag_sets_direction _ "sendrecv" (by decide) rfl (by decide)
